import Mathlib

/-!
Shallow embedding of the play-dl sources:
  * `src/play-dl/YouTube/utils/parser.ts` — search-result parsing
    (`ParseSearchResult`, `parseDuration`, `parseVideo`, `parseChannel`,
    `parsePlaylist`);
  * the SoundCloud module (`soundcloud`, `stream`, `stream_from_info`,
    `check_id`, `so_validate`).

JavaScript semantics is modelled explicitly:
  * a thrown exception is an `Except.error` carrying a `JsError`;
  * an explicit `throw new Error(msg)` becomes `JsError.error msg`, while the
    implicit `TypeError` raised by a member access on `undefined` becomes
    `JsError.typeError`;
  * a possibly-`undefined` value is an `Option`;
  * JavaScript numbers appearing here are integers, modelled as `Int`/`Nat`,
    with `Option Int` where `NaN` can arise (`none` = `NaN`);
  * the network primitive `request` is an external collaborator and is passed
    in as a function argument returning `Except JsError _` (its result already
    `JSON.parse`d, since the JSON text format is not itself at issue);
  * `ParseSearchResult` is embedded from the point where the embedded
    `ytInitialData` JSON has been extracted and the fixed path down to the
    item-section contents list has been walked: it takes that list of entries
    (`Detail`) directly.
-/

/-- A JavaScript exception: either an explicit `throw new Error(msg)` or the
implicit `TypeError` produced by accessing a member of `undefined`. -/
inductive JsError where
  | error (msg : String)
  | typeError
  deriving Repr, DecidableEq

/-- JS member access on a possibly-`undefined` value: `undefined.f` throws a
`TypeError`, otherwise the access succeeds. -/
def jsAccess (o : Option α) : Except JsError α :=
  match o with
  | none => .error .typeError
  | some a => .ok a

/-- JS `a || b` for a possibly-undefined string `a`: `undefined` and the empty
string are falsy and select `b`. -/
def jsOr (a : Option String) (b : String) : String :=
  match a with
  | none => b
  | some s => if s = "" then b else s

/-- First-occurrence replacement on character lists (structural, so that the
kernel can evaluate it): when `pat` matches at the current position the match
is replaced by `rep` and the rest is kept verbatim. -/
def replaceFirstAux (pat rep : List Char) : List Char → List Char
  | [] => []
  | c :: rest =>
    if pat.isPrefixOf (c :: rest) then rep ++ (c :: rest).drop pat.length
    else c :: replaceFirstAux pat rep rest

/-- JS `s.replace(pat, rep)` with a *string* pattern: replaces only the first
occurrence of `pat` in `s` (the code only uses it with the non-empty pattern
`"//"`). -/
def replaceFirst (s pat rep : String) : String :=
  ⟨replaceFirstAux pat.data rep.data s.data⟩

/-- Substring containment on character lists (structural). -/
def containsSubAux (pat : List Char) : List Char → Bool
  | [] => pat.isEmpty
  | c :: rest => pat.isPrefixOf (c :: rest) || containsSubAux pat rest

/-- JS `s.includes(pat)` for the fixed non-empty patterns used by the parser
("verified", "artist"). -/
def containsSubstr (s pat : String) : Bool :=
  containsSubAux pat.data s.data

/-- JS replace of /[^0-9]/g by the empty string: strip every character outside 0-9. -/
def stripNonDigits (s : String) : String :=
  ⟨s.data.filter Char.isDigit⟩

/-- Value of a non-empty all-digit string (used after stripping non-digits). -/
def natOfDigits (s : String) : Nat :=
  s.data.foldl (fun n c => n * 10 + (c.toNat - 48)) 0

/-- JS `parseInt` on the strings this code feeds it: skip leading whitespace,
an optional sign, then the longest digit prefix; no digit prefix gives `NaN`
(modelled as `none`). -/
def parseIntJS (s : String) : Option Int :=
  let t := s.data.dropWhile Char.isWhitespace
  let (neg, rest) :=
    match t with
    | '-' :: r => (true, r)
    | '+' :: r => (false, r)
    | r => (false, r)
  let digits := rest.takeWhile Char.isDigit
  if digits.isEmpty then none
  else some ((if neg then -1 else 1) * (natOfDigits ⟨digits⟩ : Int))

/-- JS split on the colon character, over character lists (the separator is a single
character, so this is structural). -/
def splitOnColon : List Char → List (List Char)
  | [] => [[]]
  | c :: rest =>
    let r := splitOnColon rest
    if c = ':' then [] :: r
    else
      match r with
      | [] => [[c]]
      | g :: gs => (c :: g) :: gs

/-- `parseDuration` (parser.ts lines 68-85): converts `h:mm:ss` / `mm:ss` /
`ss` text to total seconds.  An empty (falsy) string returns `0` immediately;
a `NaN` produced by `parseInt` propagates through the arithmetic (`none`). -/
def parseDuration (duration : String) : Option Int :=
  if duration = "" then some 0
  else
    let args := (splitOnColon duration.data).map (fun l => String.mk l)
    match args with
    | [a, b, c] => do
        let x ← parseIntJS a
        let y ← parseIntJS b
        let z ← parseIntJS c
        some (x * 60 * 60 + y * 60 + z)
    | [a, b] => do
        let x ← parseIntJS a
        let y ← parseIntJS b
        some (x * 60 + y)
    | _ => parseIntJS (args.headD "")

/-! ### The renderer JSON shapes read by the extractors -/

/-- One thumbnail descriptor `{url, width, height}` (the `thumbnail`
interface of parser.ts). -/
structure Thumb where
  url : String
  width : String
  height : String
  deriving Repr, DecidableEq

/-- An object with a `simpleText` field. -/
structure SimpleText where
  simpleText : String
  deriving Repr, DecidableEq

/-- `viewCountText`: its `simpleText` is accessed with `?.`, so it may be
absent. -/
structure ViewCountText where
  simpleText : Option String
  deriving Repr, DecidableEq

structure WebCommandMetadata where
  url : String
  deriving Repr, DecidableEq

structure CommandMetadata where
  webCommandMetadata : WebCommandMetadata
  deriving Repr, DecidableEq

structure BrowseEndpoint where
  browseId : String
  canonicalBaseUrl : Option String
  deriving Repr, DecidableEq

structure NavigationEndpoint where
  browseEndpoint : BrowseEndpoint
  commandMetadata : CommandMetadata
  deriving Repr, DecidableEq

/-- A text run carrying a navigation endpoint (`ownerText.runs[i]`,
`shortBylineText.runs[i]`). -/
structure ChannelRun where
  text : String
  navigationEndpoint : NavigationEndpoint
  deriving Repr, DecidableEq

/-- A plain text run (`title.runs[i]`, `snippetText.runs[i]`). -/
structure TextRun where
  text : String
  deriving Repr, DecidableEq

structure Runs where
  runs : List TextRun
  deriving Repr, DecidableEq

structure OwnerText where
  runs : List ChannelRun
  deriving Repr, DecidableEq

/-- `shortBylineText`, whose `runs` is accessed with `?.[0]`. -/
structure ShortBylineText where
  runs : Option (List ChannelRun)
  deriving Repr, DecidableEq

structure MetadataBadgeRenderer where
  style : Option String
  deriving Repr, DecidableEq

structure Badge where
  metadataBadgeRenderer : Option MetadataBadgeRenderer
  deriving Repr, DecidableEq

structure ThumbnailList where
  thumbnails : List Thumb
  deriving Repr, DecidableEq

structure Snippet where
  snippetText : Runs
  deriving Repr, DecidableEq

structure ChannelThumbnailWithLinkRenderer where
  thumbnail : ThumbnailList
  deriving Repr, DecidableEq

structure ChannelThumbnailSupportedRenderers where
  channelThumbnailWithLinkRenderer : ChannelThumbnailWithLinkRenderer
  deriving Repr, DecidableEq

/-- The fields of `videoRenderer` read by `parseVideo`. -/
structure VideoRenderer where
  videoId : String
  title : Runs
  detailedMetadataSnippets : Option (List Snippet)
  lengthText : Option SimpleText
  thumbnail : ThumbnailList
  ownerText : OwnerText
  ownerBadges : Option (List Badge)
  channelThumbnailSupportedRenderers : ChannelThumbnailSupportedRenderers
  publishedTimeText : Option SimpleText
  viewCountText : Option ViewCountText
  deriving Repr, DecidableEq

/-- The fields of `channelRenderer` read by `parseChannel`. -/
structure ChannelRenderer where
  channelId : String
  title : SimpleText
  navigationEndpoint : NavigationEndpoint
  thumbnail : ThumbnailList
  ownerBadges : Option (List Badge)
  subscriberCountText : Option SimpleText
  deriving Repr, DecidableEq

/-- The fields of `playlistRenderer` read by `parsePlaylist`. -/
structure PlaylistRenderer where
  playlistId : String
  title : SimpleText
  thumbnails : List ThumbnailList
  shortBylineText : ShortBylineText
  videoCount : String
  deriving Repr, DecidableEq

/-- One entry of the item-section contents list: it may carry any of the
three renderer keys (or none). -/
structure Detail where
  videoRenderer : Option VideoRenderer
  channelRenderer : Option ChannelRenderer
  playlistRenderer : Option PlaylistRenderer
  deriving Repr, DecidableEq

/-! ### The produced entities -/

/-- The channel sub-record assembled inside `parseVideo`. -/
structure VideoChannelInfo where
  id : Option String
  name : Option String
  url : String
  icons : List Thumb
  verified : Bool
  artist : Bool
  deriving Repr, DecidableEq

/-- The record handed to the external `YouTubeVideo` constructor.
`duration : Option Int` uses `none` for `NaN`; `duration_raw = none` models
JS `null`; `views` holds the final integer view count (see `jsViews`). -/
structure YouTubeVideo where
  id : String
  url : String
  title : String
  description : String
  duration : Option Int
  duration_raw : Option String
  thumbnails : List Thumb
  channel : VideoChannelInfo
  uploadedAt : Option String
  views : Nat
  live : Bool
  deriving Repr, DecidableEq

/-- Modelled from the spec: the `YouTubeVideo` class (an external value-object
constructor, `src/play-dl/YouTube/classes/Video.ts`, not present under the
sources) exposes the entity thumbnail as "always the largest available
variant (last element of a source-ordered list)". -/
def YouTubeVideo.thumbnail (v : YouTubeVideo) : Option Thumb :=
  v.thumbnails.getLast?

/-- The record handed to the external `YouTubeChannel` constructor. -/
structure YouTubeChannel where
  id : String
  name : String
  icon : Thumb
  url : String
  verified : Bool
  artist : Bool
  subscribers : String
  deriving Repr, DecidableEq

structure PlaylistThumbnail where
  id : String
  url : String
  height : String
  width : String
  deriving Repr, DecidableEq

structure PlaylistChannelInfo where
  id : Option String
  name : Option String
  url : String
  deriving Repr, DecidableEq

/-- The record handed to the external `YouTubePlayList` constructor
(`videos : Option Int` with `none` for `NaN`). -/
structure YouTubePlayList where
  id : String
  title : String
  thumbnail : PlaylistThumbnail
  channel : PlaylistChannelInfo
  videos : Option Int
  deriving Repr, DecidableEq

/-- The badge style string: `ownerBadges?.[0]?.metadataBadgeRenderer?.style?.toLowerCase()`. -/
def badgeOf (ownerBadges : Option (List Badge)) : Option String :=
  ((((ownerBadges.bind List.head?).bind
      (fun b => b.metadataBadgeRenderer)).bind
      (fun m => m.style)).map String.toLower)

/-- `Boolean(badge?.includes(pat))`: absent badge gives `false`. -/
def badgeHas (badge : Option String) (pat : String) : Bool :=
  match badge with
  | none => false
  | some b => containsSubstr b pat

/-- The view-count value of `parseVideo` (parser.ts line 149):
`viewCountText?.simpleText?.replace(...)` with the non-digit regex and a
fallback of `?? 0`, i.e. every
non-digit character is stripped from the text, absence gives `0`.
Modelled from the spec for the final step only: the numeric coercion of the
digit string into an integer is performed by the external `YouTubeVideo`
constructor (not present under the sources); the spec states the text
"parses to an integer, defaulting to 0 when absent". -/
def jsViews (text : Option String) : Nat :=
  match text with
  | none => 0
  | some s => natOfDigits (stripNonDigits s)

/-- `parseVideo` (parser.ts lines 120-154) on an entry whose `videoRenderer`
is present.  Any access of a missing required field raises a `TypeError`. -/
def parseVideoRenderer (vr : VideoRenderer) : Except JsError YouTubeVideo := do
  let channel! := vr.ownerText.runs.head?
  let badge := badgeOf vr.ownerBadges
  let durationText := vr.lengthText
  let titleRun ← jsAccess vr.title.runs.head?
  let description ←
    match vr.detailedMetadataSnippets with
    | none => pure ""
    | some snippets =>
      match snippets.head? with
      | none => Except.error .typeError
      | some s =>
        pure (if s.snippetText.runs.length != 0
          then String.join (s.snippetText.runs.map (fun r => r.text))
          else "")
  let channel ← jsAccess channel!
  Except.ok {
    id := vr.videoId
    url := "https://www.youtube.com/watch?v=" ++ vr.videoId
    title := titleRun.text
    description := description
    duration := match durationText with
      | some lt => parseDuration lt.simpleText
      | none => some 0
    duration_raw := durationText.map (fun lt => lt.simpleText)
    thumbnails := vr.thumbnail.thumbnails
    channel := {
      id := if channel.navigationEndpoint.browseEndpoint.browseId = ""
        then none else some channel.navigationEndpoint.browseEndpoint.browseId
      name := if channel.text = "" then none else some channel.text
      url := "https://www.youtube.com" ++
        jsOr channel.navigationEndpoint.browseEndpoint.canonicalBaseUrl
          channel.navigationEndpoint.commandMetadata.webCommandMetadata.url
      icons := vr.channelThumbnailSupportedRenderers.channelThumbnailWithLinkRenderer.thumbnail.thumbnails
      verified := badgeHas badge "verified"
      artist := badgeHas badge "artist" }
    uploadedAt := vr.publishedTimeText.map (fun p => p.simpleText)
    views := jsViews (vr.viewCountText.bind (fun v => v.simpleText))
    live := durationText.isNone }

/-- `parseVideo` (parser.ts lines 120-121): throws
the failed-to-parse error when the entry or its `videoRenderer` key
is missing. -/
def parseVideo (data : Option Detail) : Except JsError YouTubeVideo :=
  match data with
  | none => .error (.error "Failed to Parse YouTube Video")
  | some d =>
    match d.videoRenderer with
    | none => .error (.error "Failed to Parse YouTube Video")
    | some vr => parseVideoRenderer vr

/-- `parseChannel` (parser.ts lines 91-114) on an entry whose
`channelRenderer` is present: the icon is the *last* element of the
thumbnails list (`thumbnails[thumbnails.length - 1]`), with `//` replaced by
`https://` in its url; an empty list makes that access throw a `TypeError`. -/
def parseChannelRenderer (cr : ChannelRenderer) : Except JsError YouTubeChannel := do
  let badge := badgeOf cr.ownerBadges
  let url := "https://www.youtube.com" ++
    jsOr cr.navigationEndpoint.browseEndpoint.canonicalBaseUrl
      cr.navigationEndpoint.commandMetadata.webCommandMetadata.url
  let thumbnail ← jsAccess cr.thumbnail.thumbnails.getLast?
  Except.ok {
    id := cr.channelId
    name := cr.title.simpleText
    icon := {
      url := replaceFirst thumbnail.url "//" "https://"
      width := thumbnail.width
      height := thumbnail.height }
    url := url
    verified := badgeHas badge "verified"
    artist := badgeHas badge "artist"
    subscribers := match cr.subscriberCountText with
      | some s => s.simpleText
      | none => "0 subscribers" }

/-- `parseChannel` (parser.ts line 92). -/
def parseChannel (data : Option Detail) : Except JsError YouTubeChannel :=
  match data with
  | none => .error (.error "Failed to Parse YouTube Channel")
  | some d =>
    match d.channelRenderer with
    | none => .error (.error "Failed to Parse YouTube Channel")
    | some cr => parseChannelRenderer cr

/-- `parsePlaylist` (parser.ts lines 160-188) on an entry whose
`playlistRenderer` is present: the thumbnail is the last element of
`thumbnails[0].thumbnails` (a missing `thumbnails[0]` or an empty inner list
makes the subsequent access throw); a missing byline run makes the channel
url end in the JS string `"undefined"` (template interpolation of
`undefined`). -/
def parsePlaylistRenderer (pr : PlaylistRenderer) : Except JsError YouTubePlayList := do
  let outer ← jsAccess pr.thumbnails.head?
  let thumbnail ← jsAccess outer.thumbnails.getLast?
  let channel? := pr.shortBylineText.runs.bind List.head?
  Except.ok {
    id := pr.playlistId
    title := pr.title.simpleText
    thumbnail := {
      id := pr.playlistId
      url := thumbnail.url
      height := thumbnail.height
      width := thumbnail.width }
    channel := {
      id := channel?.map (fun c => c.navigationEndpoint.browseEndpoint.browseId)
      name := channel?.map (fun c => c.text)
      url := "https://www.youtube.com" ++
        (match channel? with
          | some c => c.navigationEndpoint.commandMetadata.webCommandMetadata.url
          | none => "undefined") }
    videos := parseIntJS (stripNonDigits pr.videoCount) }

/-- `parsePlaylist` (parser.ts line 161). -/
def parsePlaylist (data : Option Detail) : Except JsError YouTubePlayList :=
  match data with
  | none => .error (.error "Failed to Parse YouTube Playlist")
  | some d =>
    match d.playlistRenderer with
    | none => .error (.error "Failed to Parse YouTube Playlist")
    | some pr => parsePlaylistRenderer pr

/-! ### The search-result walk (`ParseSearchResult`, parser.ts lines 23-62) -/

/-- The sum of the three entity types a search can return. -/
inductive YouTube where
  | video (v : YouTubeVideo)
  | channel (c : YouTubeChannel)
  | playlist (p : YouTubePlayList)
  deriving Repr, DecidableEq

/-- The caller options (`ParseSearchInterface`); `language` is unused by the
parsing path and omitted. -/
structure ParseSearchInterface where
  type : Option String
  limit : Option Int
  deriving Repr, DecidableEq

/-- The loop-body skip test (parser.ts line 40): an entry is skipped
(`continue`) exactly when it carries none of the three renderer keys. -/
def skippable (d : Detail) : Bool :=
  d.videoRenderer.isNone && d.channelRenderer.isNone && d.playlistRenderer.isNone

/-- The `switch (options.type)` dispatch of the loop body (parser.ts lines
41-59): each recognized type runs its extractor on the entry; any other type
throws `Unknown search type`. -/
def parseFor (ty : String) (d : Detail) : Except JsError YouTube :=
  match ty with
  | "video" => (parseVideo (some d)).map YouTube.video
  | "channel" => (parseChannel (some d)).map YouTube.channel
  | "playlist" => (parsePlaylist (some d)).map YouTube.playlist
  | _ => .error (.error ("Unknown search type: " ++ ty))

/-- The `for (const detail of details)` loop (parser.ts lines 38-60), with the
accumulated `results` array made explicit.  At the top of each iteration the
loop breaks when `hasLimit` and the accumulated length equals `limit`; a
skippable entry is passed over; otherwise the dispatched extractor either
produces an entity that is pushed (the extractors only ever return truthy
objects, so the `if (parsed)` guard always pushes) or throws, aborting the
whole call. -/
def searchLoop (ty : String) (hasLimit : Bool) (limit : Int) :
    List Detail → List YouTube → Except JsError (List YouTube)
  | [], acc => .ok acc
  | d :: rest, acc =>
    if hasLimit ∧ (acc.length : Int) = limit then .ok acc
    else if skippable d then searchLoop ty hasLimit limit rest acc
    else
      match parseFor ty d with
      | .ok parsed => searchLoop ty hasLimit limit rest (acc ++ [parsed])
      | .error e => .error e

/-- `ParseSearchResult` (parser.ts lines 23-62), embedded from the point where
the `ytInitialData` JSON has been extracted from the html and the fixed path
`contents.twoColumnSearchResultsRenderer.primaryContents.sectionListRenderer.contents[0].itemSectionRenderer.contents`
has been walked: `details` is that list.  Defaulting mirrors lines 25-26
(`options` absent gives `{type: video, limit: 0}`; a present `options` whose
`type` is *falsy* — absent or the empty string — gets `type = video`, since
line 26 tests `!options.type`), and `hasLimit` is line 27
(typeof options.limit is number, and options.limit > 0). -/
def ParseSearchResult (details : List Detail) (options : Option ParseSearchInterface) :
    Except JsError (List YouTube) :=
  let opts : ParseSearchInterface :=
    match options with
    | none => { type := some "video", limit := some 0 }
    | some o =>
      match o.type with
      | none => { o with type := some "video" }
      | some t => if t = "" then { o with type := some "video" } else o
  let hasLimit : Bool :=
    match opts.limit with
    | some n => decide (0 < n)
    | none => false
  searchLoop (opts.type.getD "video") hasLimit (opts.limit.getD 0) details []

/-! ### The SoundCloud module (`src/unnamed/part_000`) -/

/-- The persisted credential (`SoundDataOptions`). -/
structure SoundDataOptions where
  client_id : String
  deriving Repr, DecidableEq

/-- The `format` sub-object of one encoded variant. -/
structure SoFormatInfo where
  mime_type : String
  deriving Repr, DecidableEq

/-- One encoded variant of a track (`formats[i]`). -/
structure SoFormat where
  url : String
  format : SoFormatInfo
  deriving Repr, DecidableEq

/-- The `JSON.parse`d body of a resolve response: the `kind` discriminator
plus the track fields the streaming path reads. -/
structure ResolveJson where
  kind : String
  formats : List SoFormat
  deriving Repr, DecidableEq

/-- Modelled from the spec: `SoundCloudTrack` is an external value-object
constructor (`construct(TypedRecord) -> Entity`); it keeps the track
format list, which the streaming path reads back. -/
structure SoundCloudTrack where
  formats : List SoFormat
  deriving Repr, DecidableEq

/-- Modelled from the spec: `SoundCloudPlaylist` is an external value-object
constructor taking the response and the credential (it eagerly resolves
nested tracks with it — a constructor concern, out of scope). -/
structure SoundCloudPlaylist where
  json : ResolveJson
  client_id : String
  deriving Repr, DecidableEq

/-- `new SoundCloudTrack(json_data)`. -/
def SoundCloudTrack.ofJson (j : ResolveJson) : SoundCloudTrack :=
  { formats := j.formats }

/-- What `soundcloud` returns: a track or a playlist entity. -/
inductive SoundCloudEntity where
  | track (t : SoundCloudTrack)
  | playlist (p : SoundCloudPlaylist)
  deriving Repr, DecidableEq

/-- `StreamType` classification used by the streaming path. -/
inductive StreamType where
  | OggOpus
  | Arbitrary
  deriving Repr, DecidableEq

/-- The `Stream` value object: final signed url plus stream type (named
`SoStream` here because `Stream` is taken by the ambient library). -/
structure SoStream where
  url : String
  type : StreamType
  deriving Repr, DecidableEq

/-- The URL regex
`^(?:(https?):\/\/)?(?:(?:www|m)\.)?(soundcloud\.com|snd\.sc)\/(.*)$`
expanded into its finite alternation: an optional scheme, an optional
`www.`/`m.` subdomain, one of the two hosts.  A string matches the regex
exactly when it extends one of these prefixes followed by `/` (the trailing
`(.*)$` accepts any remainder, including the empty one). -/
def pattern : List String :=
  ["", "http://", "https://"].flatMap (fun scheme =>
    ["", "www.", "m."].flatMap (fun sub =>
      ["soundcloud.com", "snd.sc"].map (fun host =>
        scheme ++ sub ++ host)))

/-- `url.match(pattern)` as a boolean: does `url` match the regex? -/
def pattern_match (url : String) : Bool :=
  pattern.any (fun p => (p ++ "/").data.isPrefixOf url.data)

/-- `soundcloud(url)` (part_000 lines 17-34).  The stored credential
(`soundData`, `undefined` when `.data/soundcloud.data` was absent at startup)
and the outcome of the resolve call (`request` followed by `JSON.parse`) are
passed in explicitly.  Order of checks mirrors the source: missing credential
throws first, then the URL shape check, then a network error is re-thrown,
then the `kind` discriminator is applied. -/
def soundcloud (soundData : Option SoundDataOptions) (url : String)
    (response : Except JsError ResolveJson) : Except JsError SoundCloudEntity :=
  match soundData with
  | none => .error (.error "SoundCloud Data is missing\nDid you forgot to do authorization ?")
  | some sd =>
    if ¬ pattern_match url then .error (.error "This is not a SoundCloud URL")
    else
      match response with
      | .error e => .error e
      | .ok json_data =>
        if json_data.kind ≠ "track" ∧ json_data.kind ≠ "playlist" then
          .error (.error "This url is out of scope for play-dl.")
        else if json_data.kind = "track" then
          .ok (.track (SoundCloudTrack.ofJson json_data))
        else
          .ok (.playlist { json := json_data, client_id := sd.client_id })

/-- The `JSON.parse`d body of a format-url response (`s_data`), of which only
`.url` is read. -/
structure StreamJson where
  url : String
  deriving Repr, DecidableEq

/-- `stream_from_info(data)` (part_000 lines 49-56).  Reads
`data.formats[data.formats.length - 1]` (a `TypeError` on an empty list) and
then `soundData.client_id` **without** the missing-credential guard that
`soundcloud` performs: an absent credential surfaces as the generic
`TypeError` of accessing a member of `undefined`. -/
def stream_from_info (soundData : Option SoundDataOptions)
    (request : String → Except JsError StreamJson)
    (data : SoundCloudTrack) : Except JsError SoStream := do
  let fmt ← jsAccess data.formats.getLast?
  let cid ← jsAccess (soundData.map (fun sd => sd.client_id))
  let req_url := fmt.url ++ "?client_id=" ++ cid
  let s_data ← request req_url
  let type := if ("audio/ogg".data.isPrefixOf fmt.format.mime_type.data : Bool)
    then StreamType.OggOpus else StreamType.Arbitrary
  Except.ok { url := s_data.url, type := type }

/-- The search url built by `check_id` (part_000 line 59). -/
def check_id_url (id : String) : String :=
  "https://api-v2.soundcloud.com/search?client_id=" ++ id ++ "&q=Rick+Roll&limit=0"

/-- `check_id(id)` (part_000 lines 58-66): a rejection of the request is caught
(`.catch(err => err)`) and turned into `false`; a successful response gives
`true`.  The function is total — it never throws. -/
def check_id (request : String → Except JsError String) (id : String) : Bool :=
  match request (check_id_url id) with
  | .error _ => false
  | .ok _ => true

/-- The result type of `so_validate`: in JS, one of the two kind strings or
the boolean false. -/
inductive SoValidateResult where
  | track
  | playlist
  | invalid
  deriving Repr, DecidableEq

/-- The resolve url built by `soundcloud`/`so_validate`. -/
def resolve_url (url cid : String) : String :=
  "https://api-v2.soundcloud.com/resolve?url=" ++ url ++ "&client_id=" ++ cid

/-- `so_validate(url)` (part_000 lines 68-79).  Builds the resolve url from
`soundData.client_id` **without** the missing-credential guard (an absent
credential is a generic `TypeError`), re-throws a network error, then maps
the `kind` discriminator to the track / playlist / false result. -/
def so_validate (soundData : Option SoundDataOptions)
    (request : String → Except JsError ResolveJson)
    (url : String) : Except JsError SoValidateResult := do
  let cid ← jsAccess (soundData.map (fun sd => sd.client_id))
  let json_data ← request (resolve_url url cid)
  if json_data.kind = "track" then Except.ok .track
  else if json_data.kind = "playlist" then Except.ok .playlist
  else Except.ok .invalid

/-! ### Concrete sample data (used by witnesses and counterexamples) -/

def sampleNav : NavigationEndpoint := ⟨⟨"UCabc", some "/c/chan"⟩, ⟨⟨"/c/chan"⟩⟩⟩

/-- A well-formed `videoRenderer` entry. -/
def sampleVideoRenderer : VideoRenderer :=
  { videoId := "dQw4"
    title := ⟨[⟨"Title"⟩]⟩
    detailedMetadataSnippets := none
    lengthText := some ⟨"1:02:03"⟩
    thumbnail := ⟨[⟨"//lo", "120", "90"⟩, ⟨"//hi", "336", "188"⟩]⟩
    ownerText := ⟨[⟨"Chan", sampleNav⟩]⟩
    ownerBadges := none
    channelThumbnailSupportedRenderers := ⟨⟨⟨[]⟩⟩⟩
    publishedTimeText := none
    viewCountText := some ⟨some "1,234,567 views"⟩ }

/-- `parseVideo` output on `sampleVideoRenderer`. -/
def sampleVideo : YouTubeVideo :=
  { id := "dQw4"
    url := "https://www.youtube.com/watch?v=dQw4"
    title := "Title"
    description := ""
    duration := some 3723
    duration_raw := some "1:02:03"
    thumbnails := [⟨"//lo", "120", "90"⟩, ⟨"//hi", "336", "188"⟩]
    channel := { id := some "UCabc", name := some "Chan",
                 url := "https://www.youtube.com/c/chan", icons := [],
                 verified := false, artist := false }
    uploadedAt := none
    views := 1234567
    live := false }

/-- The same entry without a `lengthText`: a live broadcast. -/
def sampleLiveRenderer : VideoRenderer :=
  { sampleVideoRenderer with lengthText := none, viewCountText := none }

/-- A well-formed `channelRenderer` entry. -/
def sampleChannelRenderer : ChannelRenderer :=
  { channelId := "UCabc"
    title := ⟨"Chan"⟩
    navigationEndpoint := sampleNav
    thumbnail := ⟨[⟨"//small", "88", "88"⟩, ⟨"//big", "176", "176"⟩]⟩
    ownerBadges := none
    subscriberCountText := some ⟨"10 subscribers"⟩ }

/-- `parseChannel` output on `sampleChannelRenderer`. -/
def sampleChannel : YouTubeChannel :=
  { id := "UCabc"
    name := "Chan"
    icon := ⟨"https://big", "176", "176"⟩
    url := "https://www.youtube.com/c/chan"
    verified := false
    artist := false
    subscribers := "10 subscribers" }

/-- A well-formed `playlistRenderer` entry. -/
def samplePlaylistRenderer : PlaylistRenderer :=
  { playlistId := "PL1"
    title := ⟨"Mix"⟩
    thumbnails := [⟨[⟨"p-small", "120", "90"⟩, ⟨"p-big", "336", "188"⟩]⟩]
    shortBylineText := ⟨some [⟨"Chan", sampleNav⟩]⟩
    videoCount := "25 videos" }

/-- `parsePlaylist` output on `samplePlaylistRenderer`. -/
def samplePlaylist : YouTubePlayList :=
  { id := "PL1"
    title := "Mix"
    thumbnail := ⟨"PL1", "p-big", "188", "336"⟩
    channel := { id := some "UCabc", name := some "Chan",
                 url := "https://www.youtube.com/c/chan" }
    videos := some 25 }

/-- A list entry carrying only a (well-formed) `channelRenderer`. -/
def channelOnlyDetail : Detail :=
  { videoRenderer := none, channelRenderer := some sampleChannelRenderer, playlistRenderer := none }

/-- A list entry carrying only a (well-formed) `videoRenderer`. -/
def videoOnlyDetail : Detail :=
  { videoRenderer := some sampleVideoRenderer, channelRenderer := none, playlistRenderer := none }

/-- A list entry carrying none of the three renderer keys. -/
def emptyDetail : Detail :=
  { videoRenderer := none, channelRenderer := none, playlistRenderer := none }

/-! ### Extraction lemmas for the three per-entry routines -/

/-- Any successful `parseVideo` output carries: `live` set iff `lengthText`
was absent, the duration computed from the duration text (0 when absent),
the stripped view count, and the source thumbnails list unchanged. -/
theorem parseVideoRenderer_fields (vr : VideoRenderer) (v : YouTubeVideo)
    (h : parseVideoRenderer vr = .ok v) :
    v.live = vr.lengthText.isNone ∧
    v.duration = (match vr.lengthText with
      | some lt => parseDuration lt.simpleText
      | none => some 0) ∧
    v.views = jsViews (vr.viewCountText.bind (fun x => x.simpleText)) ∧
    v.thumbnails = vr.thumbnail.thumbnails := by
  unfold parseVideoRenderer at h
  simp only [bind, Except.bind, pure, Except.pure, jsAccess] at h
  iterate 6 (all_goals (try split at h))
  all_goals (first | (cases h; exact ⟨rfl, rfl, rfl, rfl⟩) | simp_all)

/-- Any successful `parseChannel` output takes its icon from the *last*
element of the source thumbnails list. -/
theorem parseChannelRenderer_icon (cr : ChannelRenderer) (res : YouTubeChannel)
    (h : parseChannelRenderer cr = .ok res) :
    ∃ tb, cr.thumbnail.thumbnails.getLast? = some tb ∧
      res.icon = { url := replaceFirst tb.url "//" "https://",
                   width := tb.width, height := tb.height } := by
  cases hlast : cr.thumbnail.thumbnails.getLast? with
  | none =>
    unfold parseChannelRenderer at h
    rw [hlast] at h
    simp [jsAccess, Except.bind, bind] at h
  | some tb =>
    refine ⟨tb, rfl, ?_⟩
    unfold parseChannelRenderer at h
    rw [hlast] at h
    simp only [bind, Except.bind, pure, Except.pure, jsAccess, Except.ok.injEq] at h
    subst h
    rfl

/-- Any successful `parsePlaylist` output takes its thumbnail from the last
element of `thumbnails[0].thumbnails`. -/
theorem parsePlaylistRenderer_thumbnail (pr : PlaylistRenderer) (res : YouTubePlayList)
    (h : parsePlaylistRenderer pr = .ok res) :
    ∃ outer tb, pr.thumbnails.head? = some outer ∧
      outer.thumbnails.getLast? = some tb ∧
      res.thumbnail = { id := pr.playlistId, url := tb.url,
                        height := tb.height, width := tb.width } := by
  cases hout : pr.thumbnails.head? with
  | none =>
    unfold parsePlaylistRenderer at h
    rw [hout] at h
    simp [jsAccess, Except.bind, bind] at h
  | some outer =>
    cases hlast : outer.thumbnails.getLast? with
    | none =>
      unfold parsePlaylistRenderer at h
      rw [hout] at h
      simp [jsAccess, Except.bind, bind, hlast] at h
    | some tb =>
      refine ⟨outer, tb, rfl, hlast, ?_⟩
      unfold parsePlaylistRenderer at h
      rw [hout] at h
      simp only [bind, Except.bind, pure, Except.pure, jsAccess, hlast, Except.ok.injEq] at h
      subst h
      rfl

/-- C2: each of the three entity extractors selects as the entity
thumbnail the last element of the source thumbnails list (for the video
entry, `parseVideo` forwards the whole source list and the entity
thumbnail — modelled from the spec, see `YouTubeVideo.thumbnail` — is its
last element). -/
theorem c2_thumbnail_is_last :
    (∀ cr res, parseChannelRenderer cr = .ok res →
      some res.icon = cr.thumbnail.thumbnails.getLast?.map
        (fun tb => { url := replaceFirst tb.url "//" "https://",
                     width := tb.width, height := tb.height })) ∧
    (∀ pr res, parsePlaylistRenderer pr = .ok res →
      some res.thumbnail =
        ((pr.thumbnails.head?.bind (fun outer => outer.thumbnails.getLast?)).map
          (fun tb => { id := pr.playlistId, url := tb.url,
                       height := tb.height, width := tb.width }))) ∧
    (∀ vr v, parseVideoRenderer vr = .ok v →
      v.thumbnail = vr.thumbnail.thumbnails.getLast?) := by
  refine ⟨?_, ?_, ?_⟩
  · intro cr res h
    obtain ⟨tb, hlast, hicon⟩ := parseChannelRenderer_icon cr res h
    rw [hlast, hicon]
    rfl
  · intro pr res h
    obtain ⟨outer, tb, hout, hlast, hthumb⟩ := parsePlaylistRenderer_thumbnail pr res h
    rw [hout, hthumb]
    simp [hlast]
  · intro vr v h
    have hthumbs := (parseVideoRenderer_fields vr v h).2.2.2
    unfold YouTubeVideo.thumbnail
    rw [hthumbs]

/-- C2 witness: the three extractors applied to concrete entries each pick
the last thumbnail. -/
theorem c2_witness :
    some sampleChannel.icon = sampleChannelRenderer.thumbnail.thumbnails.getLast?.map
      (fun tb => { url := replaceFirst tb.url "//" "https://",
                   width := tb.width, height := tb.height }) ∧
    some samplePlaylist.thumbnail =
      ((samplePlaylistRenderer.thumbnails.head?.bind
          (fun outer => outer.thumbnails.getLast?)).map
        (fun tb => { id := samplePlaylistRenderer.playlistId, url := tb.url,
                     height := tb.height, width := tb.width })) ∧
    sampleVideo.thumbnail = sampleVideoRenderer.thumbnail.thumbnails.getLast? :=
  ⟨c2_thumbnail_is_last.1 sampleChannelRenderer sampleChannel (by rfl),
   c2_thumbnail_is_last.2.1 samplePlaylistRenderer samplePlaylist (by rfl),
   c2_thumbnail_is_last.2.2 sampleVideoRenderer sampleVideo (by rfl)⟩

/-- C3: the view-count text has every non-digit stripped and the remainder
read as an integer ("1,234,567 views" gives 1234567); an absent view-count
text gives 0; and the `views` field of every parsed video is computed this way
from its `viewCountText?.simpleText`. -/
theorem c3_view_count :
    jsViews (some "1,234,567 views") = 1234567 ∧
    jsViews none = 0 ∧
    ∀ vr v, parseVideoRenderer vr = .ok v →
      v.views = jsViews (vr.viewCountText.bind (fun x => x.simpleText)) := by
  refine ⟨by decide, by decide, ?_⟩
  intro vr v h
  exact (parseVideoRenderer_fields vr v h).2.2.1

/-- C3 witness: the concrete sample entry with view-count text
"1,234,567 views" parses to `views = 1234567`. -/
theorem c3_witness :
    sampleVideo.views =
      jsViews (sampleVideoRenderer.viewCountText.bind (fun x => x.simpleText)) ∧
    sampleVideo.views = 1234567 :=
  ⟨c3_view_count.2.2 sampleVideoRenderer sampleVideo (by rfl), by decide⟩

/-- C5: duration text converts positionally to seconds ("1:02:03" gives
3723, "02:03" gives 123, "45" gives 45, empty gives 0); a parsed video is
live exactly when its duration text is absent, and an absent duration text
also gives duration 0. -/
theorem c5_duration_and_live :
    parseDuration "1:02:03" = some 3723 ∧
    parseDuration "02:03" = some 123 ∧
    parseDuration "45" = some 45 ∧
    parseDuration "" = some 0 ∧
    ∀ vr v, parseVideoRenderer vr = .ok v →
      ((v.live = true ↔ vr.lengthText = none) ∧
       (vr.lengthText = none → v.duration = some 0) ∧
       (∀ lt, vr.lengthText = some lt → v.duration = parseDuration lt.simpleText)) := by
  refine ⟨by decide, by decide, by decide, by decide, ?_⟩
  intro vr v h
  obtain ⟨hlive, hdur, -, -⟩ := parseVideoRenderer_fields vr v h
  refine ⟨?_, ?_, ?_⟩
  · rw [hlive]
    cases vr.lengthText <;> simp
  · intro hnone
    rw [hdur, hnone]
  · intro lt hsome
    rw [hdur, hsome]

/-- `parseVideo` output on `sampleLiveRenderer`: live, duration 0. -/
def sampleLiveVideo : YouTubeVideo :=
  { sampleVideo with duration := some 0, duration_raw := none, views := 0, live := true }

/-- C5 witness: a concrete entry with duration text "1:02:03" is not live
and has duration 3723; the same entry without duration text is live with
duration 0. -/
theorem c5_witness :
    parseDuration "1:02:03" = some 3723 ∧
    (sampleVideo.live = true ↔ sampleVideoRenderer.lengthText = none) ∧
    sampleVideo.duration = parseDuration "1:02:03" ∧
    (sampleLiveVideo.live = true ↔ sampleLiveRenderer.lengthText = none) ∧
    sampleLiveVideo.duration = some 0 :=
  ⟨c5_duration_and_live.1,
   (c5_duration_and_live.2.2.2.2 sampleVideoRenderer sampleVideo (by rfl)).1,
   (c5_duration_and_live.2.2.2.2 sampleVideoRenderer sampleVideo (by rfl)).2.2
     ⟨"1:02:03"⟩ (by rfl),
   (c5_duration_and_live.2.2.2.2 sampleLiveRenderer sampleLiveVideo (by rfl)).1,
   (c5_duration_and_live.2.2.2.2 sampleLiveRenderer sampleLiveVideo (by rfl)).2.1 (by rfl)⟩

/-! ### SoundCloud claims -/

/-- C6: given a resolve response, `soundcloud` discriminates on `kind`:
"track" constructs a `SoundCloudTrack`, "playlist" constructs a
`SoundCloudPlaylist` (with the stored client id), and any other kind throws
the out-of-scope validation error without constructing an entity. -/
theorem c6_kind_dispatch (sd : SoundDataOptions) (url : String) (json : ResolveJson)
    (hurl : pattern_match url = true) :
    (json.kind = "track" →
      soundcloud (some sd) url (.ok json) = .ok (.track (SoundCloudTrack.ofJson json))) ∧
    (json.kind = "playlist" →
      soundcloud (some sd) url (.ok json) =
        .ok (.playlist { json := json, client_id := sd.client_id })) ∧
    (json.kind ≠ "track" → json.kind ≠ "playlist" →
      soundcloud (some sd) url (.ok json) =
        .error (.error "This url is out of scope for play-dl.")) := by
  refine ⟨?_, ?_, ?_⟩ <;> intro hk <;> simp [soundcloud, hurl, hk]

/-- C6 witness: concrete responses of kind "track", "playlist" and "user"
against a matching URL. -/
theorem c6_witness :
    soundcloud (some ⟨"cid"⟩) "https://soundcloud.com/x/y" (.ok ⟨"track", []⟩) =
      .ok (.track (SoundCloudTrack.ofJson ⟨"track", []⟩)) ∧
    soundcloud (some ⟨"cid"⟩) "https://soundcloud.com/x/y" (.ok ⟨"playlist", []⟩) =
      .ok (.playlist { json := ⟨"playlist", []⟩, client_id := "cid" }) ∧
    soundcloud (some ⟨"cid"⟩) "https://soundcloud.com/x/y" (.ok ⟨"user", []⟩) =
      .error (.error "This url is out of scope for play-dl.") :=
  ⟨(c6_kind_dispatch ⟨"cid"⟩ "https://soundcloud.com/x/y" ⟨"track", []⟩ (by decide)).1 rfl,
   (c6_kind_dispatch ⟨"cid"⟩ "https://soundcloud.com/x/y" ⟨"playlist", []⟩ (by decide)).2.1 rfl,
   (c6_kind_dispatch ⟨"cid"⟩ "https://soundcloud.com/x/y" ⟨"user", []⟩ (by decide)).2.2
     (by decide) (by decide)⟩

/-- C7: the URL check accepts exactly the platform shape — scheme optional,
optional `www`/`m` subdomain, host `soundcloud.com` or `snd.sc`, arbitrary
path — and a non-matching URL makes `soundcloud` fail with the
not-a-SoundCloud-URL validation error. -/
theorem c7_url_shape :
    pattern_match "https://soundcloud.com/x/y" = true ∧
    pattern_match "soundcloud.com/x" = true ∧
    pattern_match "http://m.soundcloud.com/x" = true ∧
    pattern_match "snd.sc/abc" = true ∧
    pattern_match "https://example.com" = false ∧
    ∀ sd response, soundcloud (some sd) "https://example.com" response =
      .error (.error "This is not a SoundCloud URL") := by
  refine ⟨by decide, by decide, by decide, by decide, by decide, ?_⟩
  intro sd response
  simp [soundcloud, show pattern_match "https://example.com" = false by decide]

/-- C8: `check_id` never throws — it returns `false` exactly when the
underlying network call fails and `true` exactly when it succeeds. -/
theorem c8_check_id (request : String → Except JsError String) (id : String) :
    (∀ e, request (check_id_url id) = .error e → check_id request id = false) ∧
    (∀ s, request (check_id_url id) = .ok s → check_id request id = true) := by
  constructor <;> intro x hx <;> simp [check_id, hx]

/-- C8 witness: a failing request gives `false`, a succeeding one gives
`true`. -/
theorem c8_witness :
    check_id (fun _ => .error .typeError) "revoked" = false ∧
    check_id (fun _ => .ok "response") "valid" = true :=
  ⟨(c8_check_id (fun _ => .error .typeError) "revoked").1 .typeError rfl,
   (c8_check_id (fun _ => .ok "response") "valid").2 "response" rfl⟩

/-- C10: with no stored credential, `soundcloud` fails with its explicit
missing-credential guard error, while `stream_from_info` and `so_validate`
— which read `soundData.client_id` without that guard — fail with the
generic `TypeError` of accessing a member of `undefined`. -/
theorem c10_missing_credential (url : String)
    (response : Except JsError ResolveJson)
    (resolveRequest : String → Except JsError ResolveJson)
    (streamRequest : String → Except JsError StreamJson)
    (track : SoundCloudTrack) :
    soundcloud none url response =
      .error (.error "SoundCloud Data is missing\nDid you forgot to do authorization ?") ∧
    so_validate none resolveRequest url = .error .typeError ∧
    stream_from_info none streamRequest track = .error .typeError := by
  refine ⟨rfl, rfl, ?_⟩
  unfold stream_from_info
  cases h : track.formats.getLast? <;>
    simp [jsAccess, h, bind, Except.bind]

/-! ### Lemmas about the search-result walk -/

/-- The number of entries of a list that the dispatched extractor for `ty`
parses successfully. -/
def countOk (ty : String) (l : List Detail) : Nat :=
  l.countP (fun d => (parseFor ty d).toOption.isSome)

/-- Whether an entry carries the renderer key matching the requested type. -/
def hasRendererFor (ty : String) (d : Detail) : Bool :=
  match ty with
  | "video" => d.videoRenderer.isSome
  | "channel" => d.channelRenderer.isSome
  | "playlist" => d.playlistRenderer.isSome
  | _ => false

/-- An entry carrying none of the three renderer keys makes every dispatch
fail (so it contributes nothing to a parse). -/
theorem skippable_parseFor_error (ty : String) (d : Detail) (hd : skippable d = true) :
    (parseFor ty d).toOption = none := by
  simp only [skippable, Bool.and_eq_true, Option.isNone_iff_eq_none] at hd
  obtain ⟨⟨hv, hc⟩, hp⟩ := hd
  unfold parseFor
  split <;> simp [parseVideo, parseChannel, parsePlaylist, hv, hc, hp, Except.map,
    Except.toOption]

/-- An entry carrying none of the three renderer keys carries no renderer at
all. -/
theorem skippable_hasRenderer (ty : String) (d : Detail) (hd : skippable d = true) :
    hasRendererFor ty d = false := by
  simp only [skippable, Bool.and_eq_true, Option.isNone_iff_eq_none] at hd
  obtain ⟨⟨hv, hc⟩, hp⟩ := hd
  unfold hasRendererFor
  split <;> simp [hv, hc, hp]

/-- A successful dispatch implies the entry carries the renderer key of the
requested type. -/
theorem parseFor_ok_hasRenderer (ty : String) (d : Detail) (y : YouTube)
    (h : parseFor ty d = .ok y) : hasRendererFor ty d = true := by
  unfold parseFor at h
  split at h
  · cases hv : d.videoRenderer <;> simp_all [parseVideo, Except.map, hasRendererFor]
  · cases hc : d.channelRenderer <;> simp_all [parseChannel, Except.map, hasRendererFor]
  · cases hp : d.playlistRenderer <;> simp_all [parsePlaylist, Except.map, hasRendererFor]
  · simp at h

/-- A type matching none of the three recognized literals makes every
dispatch throw the unknown-type error. -/
theorem parseFor_unmatched (ty : String)
    (hty : ty ≠ "video" ∧ ty ≠ "channel" ∧ ty ≠ "playlist") (d : Detail) :
    parseFor ty d = .error (.error ("Unknown search type: " ++ ty)) := by
  unfold parseFor
  split
  · exact absurd rfl hty.1
  · exact absurd rfl hty.2.1
  · exact absurd rfl hty.2.2
  · rfl

/-- A run of the loop without a limit collects, in source order, exactly the
entries the dispatched extractor parses, provided every entry is either
skippable or parses. -/
theorem searchLoop_noLimit (ty : String) (lim : Int) :
    ∀ (l : List Detail) (acc : List YouTube),
      (∀ d ∈ l, skippable d = true ∨ ∃ y, parseFor ty d = .ok y) →
      searchLoop ty false lim l acc =
        .ok (acc ++ l.filterMap (fun d => (parseFor ty d).toOption)) := by
  intro l
  induction l with
  | nil => intro acc _; simp [searchLoop]
  | cons d rest ih =>
    intro acc hwf
    unfold searchLoop
    rw [if_neg (by simp)]
    by_cases hskip : skippable d = true
    · rw [if_pos hskip, ih acc (fun x hx => hwf x (List.mem_cons_of_mem d hx))]
      simp [List.filterMap_cons, skippable_parseFor_error ty d hskip]
    · rw [if_neg hskip]
      rcases hwf d (List.mem_cons_self d rest) with hsk | ⟨y, hy⟩
      · exact absurd hsk hskip
      · have hs : (parseFor ty d).toOption = some y := by rw [hy]; rfl
        rw [hy]
        dsimp only
        rw [ih (acc ++ [y]) (fun x hx => hwf x (List.mem_cons_of_mem d hx))]
        simp [List.filterMap_cons, hs]

/-- Under the same well-formedness condition, the number of collected results
equals the number of entries carrying the requested renderer key. -/
theorem filterMap_length_eq_renderer_count (ty : String) :
    ∀ l : List Detail,
      (∀ d ∈ l, skippable d = true ∨ ∃ y, parseFor ty d = .ok y) →
      (l.filterMap (fun d => (parseFor ty d).toOption)).length =
        l.countP (fun d => hasRendererFor ty d) := by
  intro l
  induction l with
  | nil => intro _; rfl
  | cons d rest ih =>
    intro hwf
    have hrest := ih (fun x hx => hwf x (List.mem_cons_of_mem d hx))
    rcases hwf d (List.mem_cons_self d rest) with hskip | ⟨y, hy⟩
    · simp [List.filterMap_cons, List.countP_cons, skippable_parseFor_error ty d hskip,
        skippable_hasRenderer ty d hskip, hrest]
    · have hs : (parseFor ty d).toOption = some y := by rw [hy]; rfl
      simp [List.filterMap_cons, List.countP_cons, hs,
        parseFor_ok_hasRenderer ty d y hy, hrest]

/-- C1 (amended): with `limit = 0` and a requested type `ty`, provided every
list entry either lacks all three renderer keys or is parsed successfully by
the extractor for `ty`, the call returns exactly the parsed entries in source
order with no truncation, and their number equals the number of entries
carrying the renderer key for `ty`; entries lacking all three renderer keys
are skipped without aborting. -/
theorem c1_zero_limit_counts (ty : String) (details : List Detail)
    (hwf : ∀ d ∈ details, skippable d = true ∨ ∃ y, parseFor ty d = .ok y) :
    ParseSearchResult details (some { type := some ty, limit := some 0 }) =
      .ok (details.filterMap (fun d => (parseFor ty d).toOption)) ∧
    (details.filterMap (fun d => (parseFor ty d).toOption)).length =
      details.countP (fun d => hasRendererFor ty d) := by
  constructor
  · by_cases hty : ty = ""
    · subst hty
      have hall : ∀ d ∈ details, skippable d = true := by
        intro d hd
        rcases hwf d hd with h | ⟨y, hy⟩
        · exact h
        · rw [parseFor_unmatched "" (by decide) d] at hy
          cases hy
      have hred : ParseSearchResult details (some { type := some "", limit := some 0 }) =
          searchLoop "video" false 0 details [] := rfl
      rw [hred, searchLoop_noLimit "video" 0 details [] (fun d hd => Or.inl (hall d hd))]
      have h1 : details.filterMap (fun d => (parseFor "video" d).toOption) = [] :=
        List.filterMap_eq_nil_iff.mpr
          (fun d hd => skippable_parseFor_error "video" d (hall d hd))
      have h2 : details.filterMap (fun d => (parseFor "" d).toOption) = [] :=
        List.filterMap_eq_nil_iff.mpr
          (fun d hd => skippable_parseFor_error "" d (hall d hd))
      rw [h1, h2]
      simp
    · have hred : ParseSearchResult details (some { type := some ty, limit := some 0 }) =
          searchLoop ty false 0 details [] := by
        unfold ParseSearchResult
        simp [hty]
      rw [hred, searchLoop_noLimit ty 0 details [] hwf]
      simp
  · exact filterMap_length_eq_renderer_count ty details hwf

/-- C1 counterexample: a list containing one *well-formed* channel entry,
searched with `type = video` and `limit = 0`.  The claim says the
non-matching entry is skipped and the call returns the empty result list
(zero video entries match); the code instead dispatches the entry to
`parseVideo`, which throws, aborting the whole call. -/
theorem c1_counterexample :
    ParseSearchResult [channelOnlyDetail] (some { type := some "video", limit := some 0 }) =
      .error (.error "Failed to Parse YouTube Video") ∧
    (parseChannelRenderer sampleChannelRenderer).toOption.isSome = true ∧
    [channelOnlyDetail].countP (fun d => hasRendererFor "video" d) = 0 := by
  refine ⟨by rfl, by rfl, by rfl⟩

/-- C1 witness: a video entry followed by a rendererless entry, searched with
`type = video`, `limit = 0`: both conjuncts of the amended claim evaluated at
a concrete list. -/
theorem c1_witness :
    ParseSearchResult [videoOnlyDetail, emptyDetail]
        (some { type := some "video", limit := some 0 }) =
      .ok ([videoOnlyDetail, emptyDetail].filterMap
        (fun d => (parseFor "video" d).toOption)) ∧
    ([videoOnlyDetail, emptyDetail].filterMap
        (fun d => (parseFor "video" d).toOption)).length =
      [videoOnlyDetail, emptyDetail].countP (fun d => hasRendererFor "video" d) :=
  c1_zero_limit_counts "video" [videoOnlyDetail, emptyDetail]
    (by
      intro d hd
      simp only [List.mem_cons, List.not_mem_nil, or_false] at hd
      rcases hd with rfl | rfl
      · exact Or.inr ⟨.video sampleVideo, by rfl⟩
      · exact Or.inl (by rfl))

/-- With an active limit, a run that started within the limit never returns
more than `k` results: the loop breaks the moment the accumulator reaches
`k`. -/
theorem searchLoop_le (ty : String) (k : Int) :
    ∀ (l : List Detail) (acc out : List YouTube),
      searchLoop ty true k l acc = .ok out → (acc.length : Int) ≤ k →
      (out.length : Int) ≤ k := by
  intro l
  induction l with
  | nil =>
    intro acc out h hle
    simp only [searchLoop, Except.ok.injEq] at h
    rwa [← h]
  | cons d rest ih =>
    intro acc out h hle
    unfold searchLoop at h
    by_cases hbreak : (acc.length : Int) = k
    · rw [if_pos ⟨rfl, hbreak⟩] at h
      simp only [Except.ok.injEq] at h
      rwa [← h]
    · rw [if_neg (fun hc => hbreak hc.2)] at h
      by_cases hskip : skippable d = true
      · rw [if_pos hskip] at h
        exact ih acc out h hle
      · rw [if_neg hskip] at h
        cases hp : parseFor ty d with
        | ok y =>
          rw [hp] at h
          dsimp only at h
          apply ih (acc ++ [y]) out h
          have hlen : (acc ++ [y]).length = acc.length + 1 := by simp
          rw [hlen]
          have hlt : (acc.length : Int) < k := lt_of_le_of_ne hle hbreak
          push_cast
          omega
        | error e =>
          rw [hp] at h
          dsimp only at h
          simp at h

/-- With an active limit `k`, a fatal-failure-free prefix containing at
least enough parsable entries makes the loop return exactly `k` results, no
matter what follows. -/
theorem searchLoop_reach (ty : String) (k : Int) :
    ∀ (p s : List Detail) (acc : List YouTube),
      (∀ d ∈ p, skippable d = true ∨ ∃ y, parseFor ty d = .ok y) →
      (acc.length : Int) ≤ k →
      k ≤ (acc.length : Int) + (countOk ty p : Int) →
      ∃ out, searchLoop ty true k (p ++ s) acc = .ok out ∧ (out.length : Int) = k := by
  intro p
  induction p with
  | nil =>
    intro s acc _ hle hge
    have hk : (acc.length : Int) = k := le_antisymm hle (by simpa [countOk] using hge)
    refine ⟨acc, ?_, hk⟩
    cases s with
    | nil => simp [searchLoop]
    | cons d rest =>
      rw [List.nil_append]
      unfold searchLoop
      rw [if_pos ⟨rfl, hk⟩]
  | cons d rest ih =>
    intro s acc hwf hle hge
    rw [List.cons_append]
    by_cases hbreak : (acc.length : Int) = k
    · refine ⟨acc, ?_, hbreak⟩
      unfold searchLoop
      rw [if_pos ⟨rfl, hbreak⟩]
    · have hlt : (acc.length : Int) < k := lt_of_le_of_ne hle hbreak
      unfold searchLoop
      rw [if_neg (fun hc => hbreak hc.2)]
      by_cases hskip : skippable d = true
      · rw [if_pos hskip]
        apply ih s acc (fun x hx => hwf x (List.mem_cons_of_mem d hx)) hle
        have h0 : countOk ty (d :: rest) = countOk ty rest := by
          simp [countOk, List.countP_cons, skippable_parseFor_error ty d hskip]
        rw [← h0]
        exact hge
      · rw [if_neg hskip]
        rcases hwf d (List.mem_cons_self d rest) with hsk | ⟨y, hy⟩
        · exact absurd hsk hskip
        · have hs : (parseFor ty d).toOption = some y := by rw [hy]; rfl
          rw [hy]
          dsimp only
          apply ih s (acc ++ [y]) (fun x hx => hwf x (List.mem_cons_of_mem d hx))
          · have hlen : (acc ++ [y]).length = acc.length + 1 := by simp
            rw [hlen]
            push_cast
            omega
          · have h1 : countOk ty (d :: rest) = countOk ty rest + 1 := by
              simp [countOk, List.countP_cons, hs]
            have hlen : (acc ++ [y]).length = acc.length + 1 := by simp
            rw [h1] at hge
            rw [hlen]
            push_cast at hge ⊢
            omega

/-- With an active limit, once a run over a list already returns a full
result (length exactly `k`), appending *anything* to the input does not
change the outcome: the appended entries are never visited. -/
theorem searchLoop_stop (ty : String) (k : Int) :
    ∀ (l s : List Detail) (acc out : List YouTube),
      searchLoop ty true k l acc = .ok out → (out.length : Int) = k →
      searchLoop ty true k (l ++ s) acc = .ok out := by
  intro l
  induction l with
  | nil =>
    intro s acc out h hk
    have hacc : acc = out := by simpa [searchLoop] using h
    subst hacc
    cases s with
    | nil => simp [searchLoop]
    | cons d rest =>
      rw [List.nil_append]
      unfold searchLoop
      rw [if_pos ⟨rfl, hk⟩]
  | cons d rest ih =>
    intro s acc out h hk
    rw [List.cons_append]
    unfold searchLoop at h ⊢
    by_cases hbreak : (acc.length : Int) = k
    · rw [if_pos ⟨rfl, hbreak⟩] at h ⊢
      exact h
    · rw [if_neg (fun hc => hbreak hc.2)] at h ⊢
      by_cases hskip : skippable d = true
      · rw [if_pos hskip] at h ⊢
        exact ih s acc out h hk
      · rw [if_neg hskip] at h ⊢
        cases hp : parseFor ty d with
        | ok y =>
          rw [hp] at h
          dsimp only at h ⊢
          exact ih s (acc ++ [y]) out h hk
        | error e =>
          rw [hp] at h
          dsimp only at h
          simp at h

/-- C4: with `limit = k > 0` the call returns at most `k` results; it
returns exactly `k` whenever at least `k` parsable entries occur in a
fatal-failure-free prefix of the list; and entries beyond the point where
`k` results were collected are never visited (appending them leaves the
result unchanged). -/
theorem c4_positive_limit (ty : String) (k : Int) (hk : 0 < k) :
    (∀ details out,
        ParseSearchResult details (some { type := some ty, limit := some k }) = .ok out →
        (out.length : Int) ≤ k) ∧
    (∀ p s,
        (∀ d ∈ p, skippable d = true ∨ ∃ y, parseFor ty d = .ok y) →
        k ≤ (countOk ty p : Int) →
        ∃ out,
          ParseSearchResult (p ++ s) (some { type := some ty, limit := some k }) = .ok out ∧
          (out.length : Int) = k) ∧
    (∀ p s out,
        ParseSearchResult p (some { type := some ty, limit := some k }) = .ok out →
        (out.length : Int) = k →
        ParseSearchResult (p ++ s) (some { type := some ty, limit := some k }) = .ok out) := by
  have hdec : decide (0 < k) = true := decide_eq_true hk
  by_cases hty : ty = ""
  · subst hty
    have hred : ∀ details : List Detail,
        ParseSearchResult details (some { type := some "", limit := some k }) =
          searchLoop "video" (decide (0 < k)) k details [] := fun _ => rfl
    refine ⟨?_, ?_, ?_⟩
    · intro details out h
      rw [hred, hdec] at h
      exact searchLoop_le "video" k details [] out h (by simp; omega)
    · intro p s hwf hcount
      exfalso
      have hzero : countOk "" p = 0 := by
        apply List.countP_eq_zero.mpr
        intro d _
        rw [parseFor_unmatched "" (by decide) d]
        simp [Except.toOption]
      rw [hzero] at hcount
      push_cast at hcount
      omega
    · intro p s out h hk2
      rw [hred, hdec] at h ⊢
      exact searchLoop_stop "video" k p s [] out h hk2
  · have hred : ∀ details : List Detail,
        ParseSearchResult details (some { type := some ty, limit := some k }) =
          searchLoop ty (decide (0 < k)) k details [] := fun details => by
      unfold ParseSearchResult
      simp [hty]
    refine ⟨?_, ?_, ?_⟩
    · intro details out h
      rw [hred, hdec] at h
      exact searchLoop_le ty k details [] out h (by simp; omega)
    · intro p s hwf hcount
      rw [hred, hdec]
      exact searchLoop_reach ty k p s [] hwf (by simp; omega) (by simpa using hcount)
    · intro p s out h hk2
      rw [hred, hdec] at h ⊢
      exact searchLoop_stop ty k p s [] out h hk2

/-- C4 witness: with `limit = 1`, a video entry followed by a channel-only
entry (which would make `parseVideo` throw if visited) yields exactly the one
video: the poison entry past the limit is never visited. -/
theorem c4_witness :
    (([YouTube.video sampleVideo] : List YouTube).length : Int) ≤ 1 ∧
    ParseSearchResult ([videoOnlyDetail] ++ [channelOnlyDetail])
        (some { type := some "video", limit := some 1 }) =
      .ok [YouTube.video sampleVideo] :=
  ⟨(c4_positive_limit "video" 1 (by decide)).1 [videoOnlyDetail]
      [YouTube.video sampleVideo] (by rfl),
   (c4_positive_limit "video" 1 (by decide)).2.2 [videoOnlyDetail] [channelOnlyDetail]
      [YouTube.video sampleVideo] (by rfl) (by decide)⟩

/-- With an empty accumulator and a limit flag that is only set for a
positive limit, the break test at the top of the loop never fires while the
accumulator is empty; a list of entirely skippable entries therefore walks
through to the empty result. -/
theorem searchLoop_all_skip (ty : String) (hl : Bool) (lim : Int)
    (hlim : hl = true → (0 : Int) < lim) :
    ∀ l, (∀ x ∈ l, skippable x = true) → searchLoop ty hl lim l [] = .ok [] := by
  intro l
  induction l with
  | nil => intro _; rfl
  | cons d rest ih =>
    intro hall
    unfold searchLoop
    rw [if_neg ?hcond]
    case hcond =>
      rintro ⟨h1, h2⟩
      have := hlim h1
      simp at h2
      omega
    rw [if_pos (hall d (List.mem_cons_self d rest))]
    exact ih (fun x hx => hall x (List.mem_cons_of_mem d hx))

/-- An unrecognized search type throws only when the walk reaches its first
non-skippable entry. -/
theorem searchLoop_unknown (ty : String) (hl : Bool) (lim : Int)
    (hlim : hl = true → (0 : Int) < lim)
    (hty : ty ≠ "video" ∧ ty ≠ "channel" ∧ ty ≠ "playlist") :
    ∀ (p : List Detail) (d : Detail) (s : List Detail),
      (∀ x ∈ p, skippable x = true) → skippable d = false →
      searchLoop ty hl lim (p ++ d :: s) [] =
        .error (.error ("Unknown search type: " ++ ty)) := by
  have hpf : ∀ d : Detail,
      parseFor ty d = .error (.error ("Unknown search type: " ++ ty)) :=
    parseFor_unmatched ty hty
  intro p
  induction p with
  | nil =>
    intro d s _ hd
    rw [List.nil_append]
    unfold searchLoop
    rw [if_neg ?hcond1]
    case hcond1 =>
      rintro ⟨h1, h2⟩
      have := hlim h1
      simp at h2
      omega
    rw [if_neg (by simp [hd])]
    rw [hpf d]
  | cons x rest ih =>
    intro d s hall hd
    rw [List.cons_append]
    unfold searchLoop
    rw [if_neg ?hcond2]
    case hcond2 =>
      rintro ⟨h1, h2⟩
      have := hlim h1
      simp at h2
      omega
    rw [if_pos (hall x (List.mem_cons_self x rest))]
    exact ih d s (fun z hz => hall z (List.mem_cons_of_mem x hz)) hd

/-- C9: with an unrecognized `options.type` — one that is neither a
recognized literal nor the empty string, which line 26 falsy-defaults to
"video" — the unknown-type error is thrown only on reaching the first entry
carrying a recognized renderer key; an empty item list, or one whose entries
all lack the three renderer keys, returns the empty array without error. -/
theorem c9_unknown_type (ty : String) (lim : Option Int)
    (hty : ty ≠ "" ∧ ty ≠ "video" ∧ ty ≠ "channel" ∧ ty ≠ "playlist") :
    (∀ details, (∀ x ∈ details, skippable x = true) →
      ParseSearchResult details (some { type := some ty, limit := lim }) = .ok []) ∧
    (∀ p d s, (∀ x ∈ p, skippable x = true) → skippable d = false →
      ParseSearchResult (p ++ d :: s) (some { type := some ty, limit := lim }) =
        .error (.error ("Unknown search type: " ++ ty))) := by
  cases lim with
  | none =>
    have hred : ∀ details : List Detail,
        ParseSearchResult details (some { type := some ty, limit := none }) =
          searchLoop ty false 0 details [] := fun details => by
      unfold ParseSearchResult
      simp [hty.1]
    constructor
    · intro details hall
      rw [hred]
      exact searchLoop_all_skip ty false 0 (fun h => False.elim (Bool.false_ne_true h))
        details hall
    · intro p d s hall hd
      rw [hred]
      exact searchLoop_unknown ty false 0 (fun h => False.elim (Bool.false_ne_true h))
        hty.2 p d s hall hd
  | some n =>
    have hred : ∀ details : List Detail,
        ParseSearchResult details (some { type := some ty, limit := some n }) =
          searchLoop ty (decide (0 < n)) n details [] := fun details => by
      unfold ParseSearchResult
      simp [hty.1]
    have hlim : decide ((0 : Int) < n) = true → (0 : Int) < n :=
      fun h => of_decide_eq_true h
    constructor
    · intro details hall
      rw [hred]
      exact searchLoop_all_skip ty (decide (0 < n)) n hlim details hall
    · intro p d s hall hd
      rw [hred]
      exact searchLoop_unknown ty (decide (0 < n)) n hlim hty.2 p d s hall hd

/-- C9 witness: with the unrecognized type "albums", a list of one
rendererless entry returns `[]`, while appending a channel entry after it
makes the call fail with the unknown-type error. -/
theorem c9_witness :
    ParseSearchResult [emptyDetail] (some { type := some "albums", limit := none }) = .ok [] ∧
    ParseSearchResult ([emptyDetail] ++ channelOnlyDetail :: [])
        (some { type := some "albums", limit := none }) =
      .error (.error ("Unknown search type: " ++ "albums")) :=
  ⟨(c9_unknown_type "albums" none (by decide)).1 [emptyDetail]
      (by
        intro x hx
        simp only [List.mem_singleton] at hx
        subst hx
        rfl),
   (c9_unknown_type "albums" none (by decide)).2 [emptyDetail] channelOnlyDetail []
      (by
        intro x hx
        simp only [List.mem_singleton] at hx
        subst hx
        rfl)
      (by rfl)⟩
